import Mathlib

/-!
# Verification of the financial-analysis routing core

A shallow embedding, in Lean 4, of the routing / aggregation core of the
`finsight-co-pilot` repository:

* `src/agents/orchestrator.py` — ticker extraction post-processing and the
  priority-ordered intent routing decision tree (`process_query`);
* `src/agents/risk_agent.py` — the pure risk scorer
  (`assess_financial_risk`), the comprehensive risk analysis and risk
  comparison operations;
* `src/deployment/agents/market_agent.py` — company overview / AI analysis /
  comparison operations;
* `src/agents/report_agent.py` — the peer-comparison report data assembly;
* `src/utils/gemini_client.py` — the retry helper `_call_with_retry`, the
  `generate` wrapper and the `analyze_document` fallback state machine;
* `src/deployment/utils/data_providers.py` — the shared formatting helpers
  `format_large_number` and `format_percentage`.

Python float values that appear in the code are modelled by exact decimal
numbers (`Dec` below, an integer mantissa over a power-of-ten denominator):
every numeric literal in the embedded code is an exact decimal, and all the
comparisons and scalings the code performs (thresholds, `* 100`, division by
powers of ten, fixed-point rendering) are exact on decimals.  Python strings
are modelled as `String` / `List Char` (with the ASCII reading of
`str.isalpha` / `str.upper`).  LLM and network calls are modelled as
parameters: the embedded functions receive the would-be call results and we
verify the surrounding control flow and data assembly.
-/

namespace FinSight

/-! ## Python-style string primitives (over `List Char`) -/

/-- Python `str.upper` on a character (ASCII range, as in `Char.toUpper`). -/
def upperL (s : List Char) : List Char := s.map Char.toUpper

/-- Leading-whitespace removal (left part of Python `str.strip`). -/
def trimLeftL (s : List Char) : List Char := s.dropWhile Char.isWhitespace

/-- Trailing-whitespace removal (right part of Python `str.strip`). -/
def trimRightL (s : List Char) : List Char :=
  (s.reverse.dropWhile Char.isWhitespace).reverse

/-- Python `str.strip`: drop whitespace from both ends. -/
def trimL (s : List Char) : List Char := trimRightL (trimLeftL s)

/-- Python `str.split(sep)` for a one-character separator: split at every
occurrence of `sep`, keeping empty pieces. -/
def splitOnCharL (sep : Char) : List Char → List (List Char)
  | [] => [[]]
  | c :: rest =>
    if c = sep then
      [] :: splitOnCharL sep rest
    else
      match splitOnCharL sep rest with
      | [] => [[c]]
      | piece :: pieces => (c :: piece) :: pieces

/-- Does `needle` occur at the start of `hay`? -/
def startsWithL : List Char → List Char → Bool
  | [], _ => true
  | _ :: _, [] => false
  | a :: as, b :: bs => a = b && startsWithL as bs

/-- Does `needle` occur (contiguously) anywhere in `hay`?  This is Python's
`needle in hay` on strings. -/
def containsSubL (needle : List Char) : List Char → Bool
  | [] => startsWithL needle []
  | c :: rest => startsWithL needle (c :: rest) || containsSubL needle rest

/-- Python `needle in hay` on `String`s. -/
def strIn (needle hay : String) : Bool := containsSubL needle.data hay.data

/-- Python `str.isalpha` (ASCII reading): non-empty and all letters. -/
def isAlphaL (s : List Char) : Bool := !s.isEmpty && s.all Char.isAlpha

/-- Python `str.upper` on a `String` (ASCII reading). -/
def pyUpper (s : String) : String := String.mk (upperL s.data)

/-- Python `str.strip` on a `String`. -/
def pyStrip (s : String) : String := String.mk (trimL s.data)

/-! ## Exact decimal numbers

`Dec` represents the exact rational `mant / 10 ^ exp`.  Python float literals
appearing in the source (`0.5`, `1.2`, thresholds, `1e12`, …) are decimal, and
every arithmetic step the embedded code performs on them (comparison, `* 100`,
division by a power of ten, fixed-point rounding) is exact on this
representation. -/

structure Dec where
  mant : Int
  exp : Nat
deriving DecidableEq, Repr

namespace Dec

/-- An integer as a decimal. -/
def ofInt (n : Int) : Dec := ⟨n, 0⟩

/-- Strict comparison `a < b` (cross-multiplied; denominators are positive). -/
def lt (a b : Dec) : Bool := a.mant * (10 : Int) ^ b.exp < b.mant * (10 : Int) ^ a.exp

/-- Comparison `a ≤ b`. -/
def le (a b : Dec) : Bool := a.mant * (10 : Int) ^ b.exp ≤ b.mant * (10 : Int) ^ a.exp

/-- Absolute value (Python `abs`). -/
def abs (a : Dec) : Dec := ⟨|a.mant|, a.exp⟩

/-- Negation. -/
def neg (a : Dec) : Dec := ⟨-a.mant, a.exp⟩

/-- Exact multiplication by `10 ^ k` (used for the `* 100` percentage scaling). -/
def mulPow10 (a : Dec) (k : Nat) : Dec :=
  if k ≤ a.exp then ⟨a.mant, a.exp - k⟩ else ⟨a.mant * (10 : Int) ^ (k - a.exp), 0⟩

/-- Exact division by `10 ^ k` (used for the `/ 1e12`, `/ 1e9`, … scalings). -/
def divPow10 (a : Dec) (k : Nat) : Dec := ⟨a.mant, a.exp + k⟩

end Dec

/-- Decimal digits of a natural number, most significant first. -/
def natDigitsL (n : Nat) : List Char := Nat.toDigits 10 n

/-- Left-pad with `'0'` to width `d`. -/
def padZeros (d : Nat) (s : List Char) : List Char :=
  List.replicate (d - s.length) '0' ++ s

/-- Round a non-negative fraction `num / den` to the nearest integer, ties to
even — the rounding used by Python's fixed-point float formatting. -/
def roundHalfEvenN (num den : Nat) : Nat :=
  let q := num / den
  let r := num % den
  if 2 * r < den then q
  else if den < 2 * r then q + 1
  else if q % 2 = 0 then q else q + 1

/-- Python `f"{v:.{d}f}"` on an exact decimal `v`: fixed-point rendering with
`d` digits after the point, round half to even, sign in front. -/
def formatFixed (a : Dec) (d : Nat) : String :=
  let sign : List Char := if a.mant < 0 then ['-'] else []
  let n := roundHalfEvenN (a.mant.natAbs * 10 ^ d) (10 ^ a.exp)
  let ip := n / 10 ^ d
  let fr := n % 10 ^ d
  if d = 0 then String.mk (sign ++ natDigitsL ip)
  else String.mk (sign ++ natDigitsL ip ++ '.' :: padZeros d (natDigitsL fr))

/-! ## Python values at the formatting boundary

`format_large_number` and `format_percentage`
(`src/deployment/utils/data_providers.py:282-312`) accept arbitrary Python
values: `None`, numbers, strings, or anything else.  `PyVal` models the cases
their control flow distinguishes: `None`; a number; a string (which
`float(...)` may or may not parse); and any other object, carried by its
`str(...)` rendering (on which `float(...)` raises `TypeError`). -/

inductive PyVal where
  | none
  | num (v : Dec)
  | str (s : String)
  | obj (reprStr : String)
deriving DecidableEq

/-- Decimal digit characters to a natural number (most significant first). -/
def digitsToNat (ds : List Char) : Nat :=
  ds.foldl (fun a c => a * 10 + (c.toNat - 48)) 0

/-- Sign handling for Python float literals: strip one leading `+` or `-`. -/
def stripSignL (s : List Char) : Bool × List Char :=
  match s with
  | '-' :: rest => (true, rest)
  | '+' :: rest => (false, rest)
  | _ => (false, s)

/-- Parse an unsigned decimal mantissa (`"12"`, `"12.5"`, `".5"`, `"5."`) into
`(numerator, number of fraction digits)`. -/
def parseMantissaL (s : List Char) : Option (Nat × Nat) :=
  match splitOnCharL '.' s with
  | [a] =>
    if a ≠ [] ∧ a.all Char.isDigit then some (digitsToNat a, 0) else Option.none
  | [a, b] =>
    if (a ++ b) ≠ [] ∧ (a ++ b).all Char.isDigit then
      some (digitsToNat (a ++ b), b.length)
    else Option.none
  | _ => Option.none

/-- Attach a base-ten exponent to `m / 10 ^ f`, exactly. -/
def applyExp10 (m : Int) (f : Nat) (e : Int) : Dec :=
  if 0 ≤ e - (f : Int) then ⟨m * (10 : Int) ^ (e - (f : Int)).toNat, 0⟩
  else ⟨m, (-(e - (f : Int))).toNat⟩

/-- A float value as `float(...)` can produce it: finite (exact decimal on
decimal input), signed infinity, or NaN.  (CPython's float formatting prints
NaN without a sign even when `float("-nan")` was parsed, so no sign is
carried for NaN.) -/
inductive PyFloat where
  | finite (v : Dec)
  | inf (neg : Bool)
  | nan
deriving DecidableEq

/-- CPython's digit-group underscore rule (PEP 515) as it applies to
`float(...)` literals: every underscore must be immediately preceded and
immediately followed by a digit.  `prev` is the character just before the
current position. -/
def underscoresOkAux : Option Char → List Char → Bool
  | _, [] => true
  | prev, c :: rest =>
    if c = '_' then
      (match prev with
        | some p => p.isDigit
        | Option.none => false)
      && (match rest with
        | c2 :: _ => c2.isDigit
        | [] => false)
      && underscoresOkAux (some c) rest
    else underscoresOkAux (some c) rest

/-- CPython `float(s)` on an ASCII string (consistent with this file's ASCII
reading of Python strings): surrounding whitespace and an optional sign,
then `inf` / `infinity` / `nan` (case-insensitive) or a decimal / scientific
literal (optional fraction, optional `e`/`E` exponent, digit-group
underscores allowed between digits).  Returns `none` where `float(...)`
raises `ValueError`. -/
def pyFloatOfString (s : String) : Option PyFloat :=
  let t := (trimL s.data).map Char.toLower
  let (neg, core) := stripSignL t
  if core = "inf".data ∨ core = "infinity".data then some (.inf neg)
  else if core = "nan".data then some .nan
  else if underscoresOkAux Option.none t = true then
    match splitOnCharL 'e' (t.filter fun c => c != '_') with
    | [m] =>
      let (mneg, m') := stripSignL m
      match parseMantissaL m' with
      | some (n, f) =>
        some (.finite (applyExp10 (if mneg then -(n : Int) else (n : Int)) f 0))
      | Option.none => Option.none
    | [m, ex] =>
      let (mneg, m') := stripSignL m
      let (eneg, ex') := stripSignL ex
      match parseMantissaL m' with
      | some (n, f) =>
        if ex' ≠ [] ∧ ex'.all Char.isDigit then
          let e : Int :=
            if eneg then -(digitsToNat ex' : Int) else (digitsToNat ex' : Int)
          some (.finite (applyExp10 (if mneg then -(n : Int) else (n : Int)) f e))
        else Option.none
      | Option.none => Option.none
    | _ => Option.none
  else Option.none

/-- CPython `float(v)` as used by the formatting helpers: succeeds on numbers
and parseable strings, fails (raises, which the helpers catch) otherwise. -/
def pyFloatValOf : PyVal → Option PyFloat
  | .none => Option.none
  | .num v => some (.finite v)
  | .str s => pyFloatOfString s
  | .obj _ => Option.none

/-- Python `str(v)` for the values that reach the formatting helpers'
fallback branch (strings and non-numeric objects). -/
def pyStrOf : PyVal → String
  | .none => "None"
  | .num _ => ""
  | .str s => s
  | .obj r => r

/-- The numeric branch of `format_large_number`
(`src/deployment/utils/data_providers.py:290-299`): suffix by magnitude with a
dollar prefix. -/
def formatLargeOfDec (num : Dec) : String :=
  if Dec.le ⟨1000000000000, 0⟩ num.abs then "$" ++ formatFixed (num.divPow10 12) 2 ++ "T"
  else if Dec.le ⟨1000000000, 0⟩ num.abs then "$" ++ formatFixed (num.divPow10 9) 2 ++ "B"
  else if Dec.le ⟨1000000, 0⟩ num.abs then "$" ++ formatFixed (num.divPow10 6) 2 ++ "M"
  else if Dec.le ⟨1000, 0⟩ num.abs then "$" ++ formatFixed (num.divPow10 3) 1 ++ "K"
  else "$" ++ formatFixed num 2

/-- The numeric branch of `format_large_number` on the full float domain.
For `±inf`: `abs(num) >= 1e12` holds, `inf / 1e12` is still `±inf`, and
`f"{...:.2f}"` renders it `inf` / `-inf`, giving `"$infT"` / `"$-infT"`.
For NaN every `abs(num) >= ...` comparison is false, so it falls through to
the suffix-free branch, where `f"{nan:.2f}"` renders `nan`, giving
`"$nan"`. -/
def formatLargeOfPyFloat : PyFloat → String
  | .finite v => formatLargeOfDec v
  | .inf neg => "$" ++ (if neg then "-inf" else "inf") ++ "T"
  | .nan => "$" ++ "nan"

/-- `format_large_number` (`src/deployment/utils/data_providers.py:282-299`):
`None` ⇒ `"N/A"`; otherwise try `float(num)`, formatting numerically on
success and falling back to `str(num)` on `ValueError` / `TypeError`. -/
def format_large_number (v : PyVal) : String :=
  match v with
  | .none => "N/A"
  | w =>
    match pyFloatValOf w with
    | some num => formatLargeOfPyFloat num
    | Option.none => pyStrOf w

/-- The numeric branch of `format_percentage`
(`src/deployment/utils/data_providers.py:307-310`). -/
def formatPercentOfDec (val : Dec) : String :=
  if Dec.lt val.abs ⟨1, 0⟩ then formatFixed (val.mulPow10 2) 2 ++ "%"
  else formatFixed val 2 ++ "%"

/-- The numeric branch of `format_percentage` on the full float domain: for
`±inf` and NaN, `abs(val) < 1` is false, so the value renders as-is via
`f"{...:.2f}"` (`inf` / `-inf` / `nan`) with the percent sign. -/
def formatPercentOfPyFloat : PyFloat → String
  | .finite v => formatPercentOfDec v
  | .inf neg => (if neg then "-inf" else "inf") ++ "%"
  | .nan => "nan" ++ "%"

/-- `format_percentage` (`src/deployment/utils/data_providers.py:302-312`):
`None` ⇒ `"N/A"`; otherwise try `float(val)`, scaling sub-unit magnitudes by
100, and falling back to `str(val)` on parse failure. -/
def format_percentage (v : PyVal) : String :=
  match v with
  | .none => "N/A"
  | w =>
    match pyFloatValOf w with
    | some val => formatPercentOfPyFloat val
    | Option.none => pyStrOf w

/-! ## Metrics bundles and the risk scorer (`src/agents/risk_agent.py`) -/

/-- The slice of a Yahoo-Finance `get_key_metrics` bundle that the embedded
operations read.  A `none` field models a key missing from the Python dict
(`metrics.get(...)` returning `None`). -/
structure Metrics where
  debtToEquity : Option Dec := Option.none
  currentRatio : Option Dec := Option.none
  trailingPE : Option Dec := Option.none
  profitMargins : Option Dec := Option.none
  revenueGrowth : Option Dec := Option.none
  beta : Option Dec := Option.none
  marketCap : Option Dec := Option.none
  totalRevenue : Option Dec := Option.none
  longName : Option String := Option.none
  shortName : Option String := Option.none
deriving DecidableEq

/-- The severity labels used by the risk scorer. -/
inductive RiskLevel where
  | low
  | medium
  | high
  | critical
deriving DecidableEq, Repr

/-- Rank of a severity label, for comparing severities
(`Low < Medium < High < Critical`). -/
def severityRank : RiskLevel → Nat
  | .low => 0
  | .medium => 1
  | .high => 2
  | .critical => 3

/-- One emitted risk indicator: `{"level": ..., "value": ..., "note": ...}`. -/
structure RiskIndicator where
  level : RiskLevel
  value : Dec
  note : String
deriving DecidableEq

/-- The `risk_indicators` dict built by `RiskAgent.assess_financial_risk`:
ticker and company plus one optional indicator per category (a `none`
category models the key being absent from the dict). -/
structure RiskAssessment where
  ticker : String
  company : String
  leverage_risk : Option RiskIndicator := Option.none
  liquidity_risk : Option RiskIndicator := Option.none
  valuation_risk : Option RiskIndicator := Option.none
  profitability_risk : Option RiskIndicator := Option.none
  growth_risk : Option RiskIndicator := Option.none
  volatility_risk : Option RiskIndicator := Option.none
deriving DecidableEq

/-- Python `metrics.get("longName") or metrics.get("shortName", ticker)`:
`or` also skips an empty `longName` (falsy). -/
def companyNameOf (m : Metrics) (ticker : String) : String :=
  match m.longName with
  | some s => if s = "" then m.shortName.getD ticker else s
  | Option.none => m.shortName.getD ticker

/-- The leverage cascade of `assess_financial_risk`
(`src/agents/risk_agent.py:51-60`). -/
def leverageIndicator (de : Dec) : RiskIndicator :=
  if Dec.lt ⟨200, 0⟩ de then ⟨.critical, de, "Very high leverage"⟩
  else if Dec.lt ⟨100, 0⟩ de then ⟨.high, de, "High leverage"⟩
  else if Dec.lt ⟨50, 0⟩ de then ⟨.medium, de, "Moderate leverage"⟩
  else ⟨.low, de, "Conservative leverage"⟩

/-- The liquidity cascade (`src/agents/risk_agent.py:63-72`). -/
def liquidityIndicator (cr : Dec) : RiskIndicator :=
  if Dec.lt cr ⟨5, 1⟩ then ⟨.critical, cr, "Severe liquidity concern"⟩
  else if Dec.lt cr ⟨1, 0⟩ then ⟨.high, cr, "Below 1x current ratio"⟩
  else if Dec.lt cr ⟨15, 1⟩ then ⟨.medium, cr, "Adequate liquidity"⟩
  else ⟨.low, cr, "Strong liquidity"⟩

/-- The valuation cascade (`src/agents/risk_agent.py:75-84`). -/
def valuationIndicator (pe : Dec) : RiskIndicator :=
  if Dec.lt ⟨60, 0⟩ pe then ⟨.high, pe, "Very high P/E, elevated expectations"⟩
  else if Dec.lt ⟨30, 0⟩ pe then ⟨.medium, pe, "Above-average valuation"⟩
  else if Dec.lt ⟨0, 0⟩ pe then ⟨.low, pe, "Reasonable valuation"⟩
  else ⟨.high, pe, "Negative earnings"⟩

/-- The profitability cascade (`src/agents/risk_agent.py:87-94`). -/
def profitabilityIndicator (margins : Dec) : RiskIndicator :=
  if Dec.lt margins ⟨0, 0⟩ then ⟨.high, margins, "Unprofitable"⟩
  else if Dec.lt margins ⟨5, 2⟩ then ⟨.medium, margins, "Thin margins"⟩
  else ⟨.low, margins, "Healthy margins"⟩

/-- The growth cascade (`src/agents/risk_agent.py:97-104`). -/
def growthIndicator (g : Dec) : RiskIndicator :=
  if Dec.lt g ⟨-1, 1⟩ then ⟨.high, g, "Revenue declining"⟩
  else if Dec.lt g ⟨0, 0⟩ then ⟨.medium, g, "Slight revenue decline"⟩
  else ⟨.low, g, "Positive growth"⟩

/-- The volatility cascade (`src/agents/risk_agent.py:107-114`). -/
def volatilityIndicator (beta : Dec) : RiskIndicator :=
  if Dec.lt ⟨2, 0⟩ beta then ⟨.high, beta, "Very high beta"⟩
  else if Dec.lt ⟨12, 1⟩ beta then ⟨.medium, beta, "Above-market volatility"⟩
  else ⟨.low, beta, "Low to moderate volatility"⟩

/-- The scoring body of `RiskAgent.assess_financial_risk`
(`src/agents/risk_agent.py:45-116`), applied to an already-fetched metrics
bundle: each category is emitted only when its source metric is present
(`if <metric> is not None:`), with the severity chosen by the source's
strict-inequality cascades above. -/
def assess_financial_risk (ticker : String) (m : Metrics) : RiskAssessment where
  ticker := pyUpper ticker
  company := companyNameOf m ticker
  leverage_risk := m.debtToEquity.map leverageIndicator
  liquidity_risk := m.currentRatio.map liquidityIndicator
  valuation_risk := m.trailingPE.map valuationIndicator
  profitability_risk := m.profitMargins.map profitabilityIndicator
  growth_risk := m.revenueGrowth.map growthIndicator
  volatility_risk := m.beta.map volatilityIndicator

/-! Severity bucket functions written from the specification's words
("leverage from debt/equity (>200 Critical, >100 High, >50 Medium, else
Low)", and so on), to be compared with the scorer embedded above. -/

/-- Spec: leverage severity from debt/equity. -/
def leverageBucket (de : Dec) : RiskLevel :=
  if Dec.lt ⟨200, 0⟩ de then .critical
  else if Dec.lt ⟨100, 0⟩ de then .high
  else if Dec.lt ⟨50, 0⟩ de then .medium
  else .low

/-- Spec: liquidity severity from the current ratio. -/
def liquidityBucket (cr : Dec) : RiskLevel :=
  if Dec.lt cr ⟨5, 1⟩ then .critical
  else if Dec.lt cr ⟨1, 0⟩ then .high
  else if Dec.lt cr ⟨15, 1⟩ then .medium
  else .low

/-- Spec: valuation severity from trailing P/E. -/
def valuationBucket (pe : Dec) : RiskLevel :=
  if Dec.lt ⟨60, 0⟩ pe then .high
  else if Dec.lt ⟨30, 0⟩ pe then .medium
  else if Dec.lt ⟨0, 0⟩ pe then .low
  else .high

/-- Spec: profitability severity from the profit margin. -/
def profitabilityBucket (margins : Dec) : RiskLevel :=
  if Dec.lt margins ⟨0, 0⟩ then .high
  else if Dec.lt margins ⟨5, 2⟩ then .medium
  else .low

/-- Spec: growth severity from revenue growth. -/
def growthBucket (g : Dec) : RiskLevel :=
  if Dec.lt g ⟨-1, 1⟩ then .high
  else if Dec.lt g ⟨0, 0⟩ then .medium
  else .low

/-- Spec: volatility severity from beta. -/
def volatilityBucket (beta : Dec) : RiskLevel :=
  if Dec.lt ⟨2, 0⟩ beta then .high
  else if Dec.lt ⟨12, 1⟩ beta then .medium
  else .low

/-! ## The Data-Provider boundary and the specialist agents

`get_key_metrics` (`src/deployment/utils/data_providers.py:200-227`) returns
either a metrics dict or the sentinel `{"error": msg}` with no usable fields.
The agents are embedded as functions of that outcome; an `AgentResult` records
the observable decision each agent makes: return a string without generation,
or issue its one Generative-Text-Service call.  (The prompt bodies are long
f-strings whose exact text none of the verified properties depend on; the
embedding records which call is made and, for error returns, the exact
message.) -/

/-- Outcome of `get_key_metrics(ticker)`: the error sentinel or a bundle. -/
inductive FetchResult where
  | err (msg : String)
  | ok (m : Metrics)
deriving DecidableEq

/-- A Data Provider: ticker to `get_key_metrics` outcome. -/
def Fetch : Type := String → FetchResult

instance {ε α : Type} [DecidableEq ε] [DecidableEq α] : DecidableEq (Except ε α)
  | .error a, .error b =>
    if h : a = b then .isTrue (by rw [h]) else .isFalse (by simp [h])
  | .error _, .ok _ => .isFalse (by simp)
  | .ok _, .error _ => .isFalse (by simp)
  | .ok a, .ok b =>
    if h : a = b then .isTrue (by rw [h]) else .isFalse (by simp [h])

/-- The dict actually returned by `get_key_metrics`: on the sentinel, every
metric key is absent (`metrics.get(...)` yields `None` for all of them). -/
def metricsOf : FetchResult → Metrics
  | .err _ => {}
  | .ok m => m

/-- What a specialist operation does with a query: short-circuit with a
returned string, or issue its single generation call. -/
inductive AgentResult where
  | errText (msg : String)
  | genCall
deriving DecidableEq

/-- `MarketDataAgent.get_company_overview`
(`src/deployment/agents/market_agent.py:33-76`): on the sentinel, a dict whose
only content is the wrapped error message; otherwise the overview assembled
from the metrics (the overview's derived display fields are recomputed from
the bundle by their consumers, so the bundle itself is carried). -/
def get_company_overview (fetch : Fetch) (ticker : String) : Except String Metrics :=
  match fetch ticker with
  | .err e => .error ("Could not fetch data for " ++ ticker ++ ": " ++ e)
  | .ok m => .ok m

/-- `MarketDataAgent.analyze_with_ai`
(`src/deployment/agents/market_agent.py:91-157`): short-circuits with the
overview's error text when the fetch failed, otherwise builds the data summary
and issues one generation call. -/
def analyze_with_ai (fetch : Fetch) (ticker : String) (_query : String) : AgentResult :=
  match get_company_overview fetch ticker with
  | .error e => .errText e
  | .ok _ => .genCall

/-- `RiskAgent.assess_financial_risk` including its fetch and error check
(`src/agents/risk_agent.py:39-43`): the sentinel is propagated as
`{"error": msg}`, otherwise the pure scorer runs on the bundle. -/
def assess_financial_risk_op (fetch : Fetch) (ticker : String) :
    Except String RiskAssessment :=
  match fetch ticker with
  | .err e => .error e
  | .ok m => .ok (assess_financial_risk ticker m)

/-- `RiskAgent.comprehensive_risk_analysis`
(`src/agents/risk_agent.py:118-174`): fetches metrics and the risk assessment,
assembles the data context (formatting every metric, `"N/A"` for the absent
ones) and issues its generation call — on every path, with no check of the
error sentinel. -/
def comprehensive_risk_analysis (fetch : Fetch) (ticker : String) : AgentResult :=
  let _metrics := metricsOf (fetch ticker)
  let _riskData := assess_financial_risk_op fetch ticker
  AgentResult.genCall

/-! ## The Generative-Text-Service retry helper (`src/utils/gemini_client.py`) -/

/-- The retry predicate of `GeminiClient._call_with_retry`
(`src/utils/gemini_client.py:64`): retry only when the error text signals
rate-limiting or a temporarily busy server. -/
def isRetryableError (e : String) : Bool :=
  strIn "429" e || strIn "503" e || strIn "Resource exhausted" e

/-- The observable outcome of `_call_with_retry`: a returned value, a raised
error, or the unreachable `raise None` that a zero-retry budget would hit. -/
inductive RetryOutcome (α : Type) where
  | ok (v : α)
  | raised (e : String)
  | invalid
deriving DecidableEq

/-- Outcome of `_call_with_retry` together with the back-off sleeps it
performed, in order. -/
structure RetryTrace (α : Type) where
  outcome : RetryOutcome α
  sleeps : List Nat
deriving DecidableEq

/-- The loop of `GeminiClient._call_with_retry`
(`src/utils/gemini_client.py:54-69`): `attempts i` is what the wrapped `fn()`
does on its `i`-th invocation; `fuel` is the number of loop iterations left.
On a retryable error the loop sleeps `2 ^ attempt + 1` seconds and continues;
on any other error it re-raises at once; when the attempts are exhausted it
raises the last error. -/
def callWithRetryAux (attempts : Nat → Except String α) :
    Nat → Nat → Option String → RetryTrace α
  | 0, _, last =>
    match last with
    | some e => ⟨.raised e, []⟩
    | Option.none => ⟨.invalid, []⟩
  | fuel + 1, i, _ =>
    match attempts i with
    | .ok v => ⟨.ok v, []⟩
    | .error e =>
      if isRetryableError e then
        let rest := callWithRetryAux attempts fuel (i + 1) (some e)
        ⟨rest.outcome, (2 ^ i + 1) :: rest.sleeps⟩
      else ⟨.raised e, []⟩

/-- `GeminiClient._call_with_retry(fn, max_retries)`. -/
def call_with_retry (attempts : Nat → Except String α) (maxRetries : Nat) :
    RetryTrace α :=
  callWithRetryAux attempts maxRetries 0 Option.none

/-- `GeminiClient.generate` (`src/utils/gemini_client.py:72-100`): runs the
model call through `_call_with_retry` (with the default budget of 4) and
converts any exception that escapes into an error-prefixed string.  (The
`invalid` outcome is unreachable with a positive budget; the surrounding
`except` would stringify it the same way.) -/
def generate (attempts : Nat → Except String String) : String :=
  match (call_with_retry attempts 4).outcome with
  | .ok v => v
  | .raised e => "Error generating response: " ++ e
  | .invalid => "Error generating response: "

/-! ## The document-analysis fallback state machine
(`GeminiClient.analyze_document`, `src/utils/gemini_client.py:103-173`) -/

/-- Python `_MAX_TEXT_CHARS`: the character budget for the text fallback. -/
def MAX_TEXT_CHARS : Nat := 60000

/-- Which exit the document analysis takes: the multimodal answer, the
text-fallback generation call (with its full prompt), or the combined failure
report. -/
inductive DocResult where
  | uploaded (text : String)
  | fallbackGenerated (prompt : String)
  | combinedFailure (msg : String)
deriving DecidableEq

/-- The fallback prompt wrapping the extracted text
(`src/utils/gemini_client.py:157-162`). -/
def fallbackPrompt (filename pdfText query : String) : String :=
  "The following is the extracted text of a financial document named '" ++
    filename ++ "'.\n\n" ++
  "DOCUMENT TEXT:\n" ++ pdfText ++ "\n\n" ++
  "QUESTION / TASK:\n" ++ query

/-- The truncation step (`src/utils/gemini_client.py:153-155`): texts longer
than the budget are cut to it, with a truncation marker appended. -/
def truncateText (pdfText : String) : String :=
  if MAX_TEXT_CHARS < pdfText.length then
    String.mk (pdfText.data.take MAX_TEXT_CHARS) ++ "\n\n... [text truncated] ..."
  else pdfText

/-- The combined failure message (`src/utils/gemini_client.py:147-151`). -/
def combinedFailureMsg (uploadErr : String) : String :=
  "Error analyzing document: " ++ uploadErr ++ "\n\n" ++
  "Additionally, could not extract text from the PDF for a " ++
  "fallback analysis.  Please try again in a minute."

/-- The `except` branch of `analyze_document`: local extraction has produced
`pdfText` (empty when nothing could be extracted); empty text reports the
combined failure, non-empty text issues the text-generation fallback on the
truncated text. -/
def docExceptBranch (uploadErr pdfText query filename : String) : DocResult :=
  if pdfText = "" then .combinedFailure (combinedFailureMsg uploadErr)
  else .fallbackGenerated (fallbackPrompt filename (truncateText pdfText) query)

/-- `GeminiClient.analyze_document`: the upload attempt runs through
`_call_with_retry` (budget 4); any exception escaping it — including the
re-raised terminal error of exhausted rate-limit retries — enters the local
text-extraction fallback.  `uploadAttempts i` is what the upload-and-generate
closure does on its `i`-th invocation, and `pdfText` is what
`_extract_pdf_text` recovers from the binary (`""` when extraction fails).
(The `invalid` outcome is unreachable with a positive budget; the `except`
would catch its exception the same way.) -/
def analyze_document (uploadAttempts : Nat → Except String String)
    (pdfText query filename : String) : DocResult :=
  match (call_with_retry uploadAttempts 4).outcome with
  | .ok text => .uploaded text
  | .raised uploadErr => docExceptBranch uploadErr pdfText query filename
  | .invalid => docExceptBranch "" pdfText query filename

/-! ## Ticker extraction (`Orchestrator._extract_tickers`,
`src/agents/orchestrator.py:42-56`) -/

/-- The post-processing of the model's raw ticker text:
`result.strip().upper()`, the `NONE` / empty check, then
`[t.strip() for t in result.split(",") if t.strip().isalpha()]`. -/
def extract_tickers_post (raw : String) : List String :=
  let result := upperL (trimL raw.data)
  if result = "NONE".data ∨ result = [] then []
  else
    (splitOnCharL ',' result).filterMap fun t =>
      if isAlphaL (trimL t) then some (String.mk (trimL t)) else Option.none

/-- The specification's description of the same post-processing: upper-case,
split on commas, trim each token, and keep exactly the tokens that are
non-empty and entirely alphabetic; literal `NONE` or an empty result gives the
empty list. -/
def extract_tickers_described (raw : String) : List String :=
  let result := upperL (trimL raw.data)
  if result = "NONE".data ∨ result = [] then []
  else
    (((splitOnCharL ',' result).map trimL).filter
      fun t => !t.isEmpty && t.all Char.isAlpha).map String.mk

/-! ## Orchestrator routing (`Orchestrator.process_query`,
`src/agents/orchestrator.py:76-162`) -/

/-- The handler `process_query` dispatches to, with the arguments it passes.
The generic multi-ticker fallback issues the same
`market_agent.compare_with_ai(tickers, query)` call as the `MARKET`
multi-ticker branch, so both map to `marketCompare`. -/
inductive Route where
  | investmentThesis (ticker : String)
  | comparisonReport (tickers : List String)
  | riskCompare (tickers : List String)
  | riskSingle (ticker : String)
  | sentimentBatch (tickers : List String)
  | sentimentSingle (ticker : String)
  | earningsAnalysis (ticker : String)
  | filingAnalysis (ticker : String) (query : String)
  | marketCompare (tickers : List String) (query : String)
  | marketSingle (ticker : String) (query : String)
  | comprehensiveSingle (ticker : String) (query : String)
  | generalQuery (query : String)
deriving DecidableEq

/-- The `if/elif` routing chain of `process_query`, as a function of the
classified intent and the extracted tickers (`tickers[0]` is guarded by the
non-emptiness tests, so `headD` is exact). -/
def process_query_route (query intent : String) (tickers : List String) : Route :=
  if strIn "INVESTMENT_THESIS" intent ∧ tickers ≠ [] then
    .investmentThesis (tickers.headD "")
  else if strIn "PEER_COMPARISON" intent ∧ 2 ≤ tickers.length then
    .comparisonReport tickers
  else if strIn "RISK" intent ∧ tickers ≠ [] then
    if 1 < tickers.length then .riskCompare tickers
    else .riskSingle (tickers.headD "")
  else if strIn "SENTIMENT" intent ∧ tickers ≠ [] then
    if 1 < tickers.length then .sentimentBatch tickers
    else .sentimentSingle (tickers.headD "")
  else if strIn "EARNINGS" intent ∧ tickers ≠ [] then
    .earningsAnalysis (tickers.headD "")
  else if strIn "DOCUMENT" intent ∧ tickers ≠ [] then
    .filingAnalysis (tickers.headD "") query
  else if strIn "MARKET" intent ∧ tickers ≠ [] then
    if 1 < tickers.length then .marketCompare tickers query
    else .marketSingle (tickers.headD "") query
  else if tickers ≠ [] then
    if 1 < tickers.length then .marketCompare tickers query
    else .comprehensiveSingle (tickers.headD "") query
  else
    .generalQuery query

/-- One row of the specification's routing table: an optional intent keyword
(substring condition), a minimum ticker count, and the selected handler. -/
structure RouteRule where
  keyword : Option String
  minTickers : Nat
  action : String → List String → Route

/-- A rule matches when the intent contains the keyword (if any) and enough
tickers were extracted. -/
def ruleMatches (r : RouteRule) (intent : String) (tickers : List String) : Bool :=
  (match r.keyword with
   | some k => strIn k intent
   | Option.none => true) && decide (r.minTickers ≤ tickers.length)

/-- Top-to-bottom, first-match-wins evaluation of a rule table; no match sends
the raw query to the generic generation path. -/
def applyRules (query intent : String) (tickers : List String) :
    List RouteRule → Route
  | [] => .generalQuery query
  | r :: rest =>
    if ruleMatches r intent tickers then r.action query tickers
    else applyRules query intent tickers rest

/-- The specification's routing table, in its priority order. -/
def routingRules : List RouteRule :=
  [⟨some "INVESTMENT_THESIS", 1, fun _ ts => .investmentThesis (ts.headD "")⟩,
   ⟨some "PEER_COMPARISON", 2, fun _ ts => .comparisonReport ts⟩,
   ⟨some "RISK", 1, fun _ ts =>
     if 1 < ts.length then .riskCompare ts else .riskSingle (ts.headD "")⟩,
   ⟨some "SENTIMENT", 1, fun _ ts =>
     if 1 < ts.length then .sentimentBatch ts else .sentimentSingle (ts.headD "")⟩,
   ⟨some "EARNINGS", 1, fun _ ts => .earningsAnalysis (ts.headD "")⟩,
   ⟨some "DOCUMENT", 1, fun q ts => .filingAnalysis (ts.headD "") q⟩,
   ⟨some "MARKET", 1, fun q ts =>
     if 1 < ts.length then .marketCompare ts q else .marketSingle (ts.headD "") q⟩,
   ⟨Option.none, 1, fun q ts =>
     if 1 < ts.length then .marketCompare ts q
     else .comprehensiveSingle (ts.headD "") q⟩]

/-! ## Multi-company comparison assembly

`compare_risks` (`src/agents/risk_agent.py:176-188`), `compare_companies`
(`src/deployment/agents/market_agent.py:78-85`) and
`generate_comparison_report` (`src/agents/report_agent.py:190-208`) all build
a Python dict keyed by `ticker.strip().upper()` in a loop and then render one
block per dict item.  `dictInsert` models `d[k] = v` on an insertion-ordered
dict: an existing key keeps its position and gets the new value, a new key is
appended. -/

/-- Python dict assignment `d[k] = v` (insertion order preserved). -/
def dictInsert (k : String) (v : α) : List (String × α) → List (String × α)
  | [] => [(k, v)]
  | (k', v') :: rest =>
    if k' = k then (k, v) :: rest else (k', v') :: dictInsert k v rest

/-- Ticker normalization used by all three comparison loops:
`ticker.strip().upper()`. -/
def normTicker (t : String) : String := pyUpper (pyStrip t)

/-- First-occurrence deduplication (`seen` accumulates the keys already
kept). -/
def firstDedup (seen : List String) : List String → List String
  | [] => []
  | t :: rest =>
    if t ∈ seen then firstDedup seen rest
    else t :: firstDedup (t :: seen) rest

/-- The `risk_profiles` dict of `RiskAgent.compare_risks`: one entry per
normalized ticker, holding that ticker's `assess_financial_risk` result. -/
def compare_risks_profiles (fetch : Fetch) (tickers : List String) :
    List (String × Except String RiskAssessment) :=
  tickers.foldl
    (fun d t => dictInsert (normTicker t) (assess_financial_risk_op fetch (normTicker t)) d)
    []

/-- The `comparison` dict of `MarketDataAgent.compare_companies` (also the
data source of `compare_with_ai`): one entry per normalized ticker, holding
that ticker's `get_company_overview` result. -/
def compare_companies_data (fetch : Fetch) (tickers : List String) :
    List (String × Except String Metrics) :=
  tickers.foldl
    (fun d t => dictInsert (normTicker t) (get_company_overview fetch (normTicker t)) d)
    []

/-- The `all_data` dict of `ReportAgent.generate_comparison_report`: one entry
per normalized ticker, holding that ticker's `get_key_metrics` result. -/
def comparison_report_data (fetch : Fetch) (tickers : List String) :
    List (String × FetchResult) :=
  tickers.foldl
    (fun d t => dictInsert (normTicker t) (fetch (normTicker t)) d)
    []

/-! ## Helper lemmas -/

theorem data_append (a b : String) : (a ++ b).data = a.data ++ b.data := rfl

theorem startsWithL_self (n t : List Char) : startsWithL n (n ++ t) = true := by
  induction n with
  | nil => rfl
  | cons a as ih => simp [startsWithL, ih]

theorem containsSubL_of_tail (n : List Char) :
    ∀ (pre t : List Char), containsSubL n t = true → containsSubL n (pre ++ t) = true := by
  intro pre
  induction pre with
  | nil => intro t h; simpa using h
  | cons c cs ih => intro t h; simp [containsSubL, ih t h]

theorem containsSubL_self (n suf : List Char) : containsSubL n (n ++ suf) = true := by
  cases n with
  | nil => cases suf <;> simp [containsSubL, startsWithL]
  | cons a as =>
    have h := startsWithL_self (a :: as) suf
    simp only [containsSubL, Bool.or_eq_true]
    exact Or.inl h

theorem leverageIndicator_value (d : Dec) : (leverageIndicator d).value = d := by
  unfold leverageIndicator
  split <;> first | rfl | (split <;> first | rfl | (split <;> rfl))

theorem leverageIndicator_level (d : Dec) :
    (leverageIndicator d).level = leverageBucket d := by
  unfold leverageIndicator leverageBucket
  split <;> first | rfl | (split <;> first | rfl | (split <;> rfl))

theorem liquidityIndicator_value (d : Dec) : (liquidityIndicator d).value = d := by
  unfold liquidityIndicator
  split <;> first | rfl | (split <;> first | rfl | (split <;> rfl))

theorem liquidityIndicator_level (d : Dec) :
    (liquidityIndicator d).level = liquidityBucket d := by
  unfold liquidityIndicator liquidityBucket
  split <;> first | rfl | (split <;> first | rfl | (split <;> rfl))

theorem valuationIndicator_value (d : Dec) : (valuationIndicator d).value = d := by
  unfold valuationIndicator
  split <;> first | rfl | (split <;> first | rfl | (split <;> rfl))

theorem valuationIndicator_level (d : Dec) :
    (valuationIndicator d).level = valuationBucket d := by
  unfold valuationIndicator valuationBucket
  split <;> first | rfl | (split <;> first | rfl | (split <;> rfl))

theorem profitabilityIndicator_value (d : Dec) : (profitabilityIndicator d).value = d := by
  unfold profitabilityIndicator
  split <;> first | rfl | (split <;> rfl)

theorem profitabilityIndicator_level (d : Dec) :
    (profitabilityIndicator d).level = profitabilityBucket d := by
  unfold profitabilityIndicator profitabilityBucket
  split <;> first | rfl | (split <;> rfl)

theorem growthIndicator_value (d : Dec) : (growthIndicator d).value = d := by
  unfold growthIndicator
  split <;> first | rfl | (split <;> rfl)

theorem growthIndicator_level (d : Dec) :
    (growthIndicator d).level = growthBucket d := by
  unfold growthIndicator growthBucket
  split <;> first | rfl | (split <;> rfl)

theorem volatilityIndicator_value (d : Dec) : (volatilityIndicator d).value = d := by
  unfold volatilityIndicator
  split <;> first | rfl | (split <;> rfl)

theorem volatilityIndicator_level (d : Dec) :
    (volatilityIndicator d).level = volatilityBucket d := by
  unfold volatilityIndicator volatilityBucket
  split <;> first | rfl | (split <;> rfl)

theorem callWithRetryAux_congr {α : Type} (f g : Nat → Except String α) :
    ∀ (fuel i : Nat) (last : Option String),
      (∀ j, i ≤ j → j < i + fuel → f j = g j) →
      callWithRetryAux f fuel i last = callWithRetryAux g fuel i last := by
  intro fuel
  induction fuel with
  | zero => intro i last _; rfl
  | succ n ih =>
    intro i last h
    have h0 : f i = g i := h i (Nat.le_refl i) (by omega)
    simp only [callWithRetryAux, h0]
    cases hg : g i with
    | ok v => simp
    | error e =>
      by_cases hr : isRetryableError e = true
      · have hrec := ih (i + 1) (some e) (fun j hj1 hj2 => h j (by omega) (by omega))
        simp [hr, hrec]
      · simp [hr]

theorem dictInsert_of_mem {α : Type} (g : String → α) :
    ∀ (pre : List String) (k : String), k ∈ pre →
      dictInsert k (g k) (pre.map fun x => (x, g x)) = pre.map fun x => (x, g x) := by
  intro pre
  induction pre with
  | nil => intro k h; simp at h
  | cons p ps ih =>
    intro k h
    by_cases hp : p = k
    · subst hp; simp [dictInsert]
    · rcases List.mem_cons.mp h with h1 | h2
      · exact absurd h1.symm hp
      · simp [dictInsert, hp, ih k h2]

theorem dictInsert_of_not_mem {α : Type} (k : String) (v : α) :
    ∀ (d : List (String × α)), k ∉ d.map Prod.fst →
      dictInsert k v d = d ++ [(k, v)] := by
  intro d
  induction d with
  | nil => intro _; rfl
  | cons p ps ih =>
    intro h
    simp only [List.map_cons, List.mem_cons] at h
    push_neg at h
    simp [dictInsert, Ne.symm h.1, ih h.2]

theorem firstDedup_congr (l : List String) :
    ∀ s1 s2, (∀ x, x ∈ s1 ↔ x ∈ s2) → firstDedup s1 l = firstDedup s2 l := by
  induction l with
  | nil => intro s1 s2 _; rfl
  | cons t rest ih =>
    intro s1 s2 h
    by_cases ht : t ∈ s1
    · simp [firstDedup, ht, (h t).mp ht, ih s1 s2 h]
    · have ht2 : t ∉ s2 := fun c => ht ((h t).mpr c)
      simp only [firstDedup, if_neg ht, if_neg ht2]
      rw [ih (t :: s1) (t :: s2) (by intro x; simp [h x])]

theorem foldl_dictInsert_eq {α : Type} (g : String → α) :
    ∀ (ts : List String) (pre : List String),
      ts.foldl (fun d t => dictInsert t (g t) d) (pre.map fun x => (x, g x))
        = (pre ++ firstDedup pre ts).map fun x => (x, g x) := by
  intro ts
  induction ts with
  | nil => intro pre; simp [firstDedup]
  | cons t rest ih =>
    intro pre
    by_cases ht : t ∈ pre
    · simp only [List.foldl_cons, dictInsert_of_mem g pre t ht, firstDedup, if_pos ht]
      exact ih pre
    · have hnm : t ∉ (pre.map fun x => (x, g x)).map Prod.fst := by
        simpa using ht
      have step : dictInsert t (g t) (pre.map fun x => (x, g x))
          = (pre ++ [t]).map fun x => (x, g x) := by
        rw [dictInsert_of_not_mem t (g t) _ hnm]; simp
      simp only [List.foldl_cons, step, ih (pre ++ [t]), firstDedup, if_neg ht]
      rw [firstDedup_congr rest (pre ++ [t]) (t :: pre) (by intro x; simp; tauto)]
      simp

theorem firstDedup_nodup : ∀ (l : List String) (s : List String),
    (firstDedup s l).Nodup ∧ ∀ x ∈ firstDedup s l, x ∉ s := by
  intro l
  induction l with
  | nil => intro s; simp [firstDedup]
  | cons t rest ih =>
    intro s
    by_cases ht : t ∈ s
    · simpa [firstDedup, ht] using ih s
    · have ihs := ih (t :: s)
      refine ⟨?_, ?_⟩
      · simp only [firstDedup, if_neg ht, List.nodup_cons]
        exact ⟨fun hc => (ihs.2 t hc) (List.mem_cons_self t s), ihs.1⟩
      · intro x hx
        simp only [firstDedup, if_neg ht, List.mem_cons] at hx
        rcases hx with rfl | hx2
        · exact ht
        · exact fun hs => (ihs.2 x hx2) (List.mem_cons_of_mem t hs)

theorem foldl_norm_dictInsert {α : Type} (g : String → α) (ts : List String) :
    ts.foldl (fun d t => dictInsert (normTicker t) (g (normTicker t)) d) []
      = (firstDedup [] (ts.map normTicker)).map fun k => (k, g k) := by
  have h1 : ts.foldl (fun d t => dictInsert (normTicker t) (g (normTicker t)) d)
      (([] : List String).map fun x => (x, g x))
      = (ts.map normTicker).foldl (fun d k => dictInsert k (g k) d)
        (([] : List String).map fun x => (x, g x)) := by
    rw [List.foldl_map]
  simpa using h1.trans (foldl_dictInsert_eq g (ts.map normTicker) [])

theorem filterMap_trim_alpha (l : List (List Char)) :
    l.filterMap
        (fun t => if isAlphaL (trimL t) then some (String.mk (trimL t)) else Option.none)
      = ((l.map trimL).filter fun t => !t.isEmpty && t.all Char.isAlpha).map String.mk := by
  induction l with
  | nil => rfl
  | cons a l ih =>
    by_cases h : isAlphaL (trimL a) = true
    · have h2 : (!(trimL a).isEmpty && (trimL a).all Char.isAlpha) = true := h
      simp [List.filterMap_cons, List.filter_cons, h, h2, ih]
    · have h2 : (!(trimL a).isEmpty && (trimL a).all Char.isAlpha) = false :=
        Bool.not_eq_true _ ▸ (by simpa [isAlphaL] using h)
      simp [List.filterMap_cons, List.filter_cons, h, h2, ih]

/-! ## Claim theorems -/

/-- C1: for every classified intent string and extracted ticker list,
`process_query` selects exactly one handler by evaluating the specification's
rules top-to-bottom, first match wins, each match requiring both the
substring condition on the intent and the ticker-count precondition — the
source's `if/elif` chain coincides with the ordered rule table
`routingRules` (with the zero-ticker case falling through to the generic
generation path). -/
theorem orchestrator_routing_matches_rule_table :
    ∀ (query intent : String) (tickers : List String),
      process_query_route query intent tickers
        = applyRules query intent tickers routingRules := by
  intro q i ts
  match ts with
  | [] =>
    simp [process_query_route, applyRules, routingRules, ruleMatches]
  | [a] =>
    simp only [process_query_route, applyRules, routingRules, ruleMatches]
    norm_num
  | a :: b :: rest =>
    simp only [process_query_route, applyRules, routingRules, ruleMatches]
    norm_num [List.cons_ne_nil]

/-- C2 counterexample: the claim asserts that at every listed threshold
boundary the value falls to the next-listed lower-severity bucket; at the
listed boundary P/E = 0 the scorer instead assigns `High` (the
negative-earnings bucket), which has strictly higher severity than the `Low`
bucket assigned just above the boundary. -/
theorem risk_boundary_pe_zero_not_lower_severity :
    ((assess_financial_risk "AAPL"
        { trailingPE := some ⟨0, 0⟩ }).valuation_risk).map RiskIndicator.level
      = some RiskLevel.high
  ∧ ((assess_financial_risk "AAPL"
        { trailingPE := some ⟨1, 0⟩ }).valuation_risk).map RiskIndicator.level
      = some RiskLevel.low
  ∧ severityRank RiskLevel.low < severityRank RiskLevel.high := by
  decide

/-- C2 (amended): `assess_financial_risk` computes exactly six independent
risk categories, each emitted only when its source metric is present (an
absent metric omits the category), with the claimed strict-threshold levels,
each indicator carrying the raw metric value; every listed boundary value
falls to the fall-through bucket of its strict inequality, which is the
next-listed lower-severity bucket for every boundary except P/E = 0, where
the fall-through bucket is `High` (negative earnings). -/
theorem risk_scorer_characterization :
    ∀ (ticker : String) (m : Metrics),
      (((assess_financial_risk ticker m).leverage_risk).map RiskIndicator.value
          = m.debtToEquity
        ∧ ((assess_financial_risk ticker m).leverage_risk).map RiskIndicator.level
          = m.debtToEquity.map leverageBucket)
    ∧ (((assess_financial_risk ticker m).liquidity_risk).map RiskIndicator.value
          = m.currentRatio
        ∧ ((assess_financial_risk ticker m).liquidity_risk).map RiskIndicator.level
          = m.currentRatio.map liquidityBucket)
    ∧ (((assess_financial_risk ticker m).valuation_risk).map RiskIndicator.value
          = m.trailingPE
        ∧ ((assess_financial_risk ticker m).valuation_risk).map RiskIndicator.level
          = m.trailingPE.map valuationBucket)
    ∧ (((assess_financial_risk ticker m).profitability_risk).map RiskIndicator.value
          = m.profitMargins
        ∧ ((assess_financial_risk ticker m).profitability_risk).map RiskIndicator.level
          = m.profitMargins.map profitabilityBucket)
    ∧ (((assess_financial_risk ticker m).growth_risk).map RiskIndicator.value
          = m.revenueGrowth
        ∧ ((assess_financial_risk ticker m).growth_risk).map RiskIndicator.level
          = m.revenueGrowth.map growthBucket)
    ∧ (((assess_financial_risk ticker m).volatility_risk).map RiskIndicator.value
          = m.beta
        ∧ ((assess_financial_risk ticker m).volatility_risk).map RiskIndicator.level
          = m.beta.map volatilityBucket)
    ∧ (leverageBucket ⟨200, 0⟩ = .high ∧ leverageBucket ⟨100, 0⟩ = .medium
        ∧ leverageBucket ⟨50, 0⟩ = .low
        ∧ liquidityBucket ⟨5, 1⟩ = .high ∧ liquidityBucket ⟨1, 0⟩ = .medium
        ∧ liquidityBucket ⟨15, 1⟩ = .low
        ∧ valuationBucket ⟨60, 0⟩ = .medium ∧ valuationBucket ⟨30, 0⟩ = .low
        ∧ valuationBucket ⟨0, 0⟩ = .high
        ∧ profitabilityBucket ⟨0, 0⟩ = .medium ∧ profitabilityBucket ⟨5, 2⟩ = .low
        ∧ growthBucket ⟨-1, 1⟩ = .medium ∧ growthBucket ⟨0, 0⟩ = .low
        ∧ volatilityBucket ⟨2, 0⟩ = .medium ∧ volatilityBucket ⟨12, 1⟩ = .low) := by
  intro t m
  refine ⟨⟨?_, ?_⟩, ⟨?_, ?_⟩, ⟨?_, ?_⟩, ⟨?_, ?_⟩, ⟨?_, ?_⟩, ⟨?_, ?_⟩, by decide⟩
  · cases h : m.debtToEquity <;>
      simp [assess_financial_risk, h, leverageIndicator_value]
  · cases h : m.debtToEquity <;>
      simp [assess_financial_risk, h, leverageIndicator_level]
  · cases h : m.currentRatio <;>
      simp [assess_financial_risk, h, liquidityIndicator_value]
  · cases h : m.currentRatio <;>
      simp [assess_financial_risk, h, liquidityIndicator_level]
  · cases h : m.trailingPE <;>
      simp [assess_financial_risk, h, valuationIndicator_value]
  · cases h : m.trailingPE <;>
      simp [assess_financial_risk, h, valuationIndicator_level]
  · cases h : m.profitMargins <;>
      simp [assess_financial_risk, h, profitabilityIndicator_value]
  · cases h : m.profitMargins <;>
      simp [assess_financial_risk, h, profitabilityIndicator_level]
  · cases h : m.revenueGrowth <;>
      simp [assess_financial_risk, h, growthIndicator_value]
  · cases h : m.revenueGrowth <;>
      simp [assess_financial_risk, h, growthIndicator_level]
  · cases h : m.beta <;>
      simp [assess_financial_risk, h, volatilityIndicator_value]
  · cases h : m.beta <;>
      simp [assess_financial_risk, h, volatilityIndicator_level]

/-- C3: ticker extraction post-processing strips and upper-cases the raw
text, treats a literal `NONE` or an empty result as the empty list, and
otherwise splits on commas, trims each token and keeps exactly the non-empty
all-alphabetic tokens — and on the two concrete inputs of the claim,
`"none"` yields `[]` and `"AAPL, MSFT 123, GOOGL"` yields
`["AAPL", "GOOGL"]`. -/
theorem extract_tickers_matches_description :
    (∀ raw, extract_tickers_post raw = extract_tickers_described raw)
  ∧ extract_tickers_post "none" = []
  ∧ extract_tickers_post "AAPL, MSFT 123, GOOGL" = ["AAPL", "GOOGL"] := by
  refine ⟨?_, by decide, by decide⟩
  intro raw
  unfold extract_tickers_post extract_tickers_described
  by_cases h : upperL (trimL raw.data) = "NONE".data ∨ upperL (trimL raw.data) = []
  · simp [h]
  · simp [h, filterMap_trim_alpha]

/-- C4 counterexample: the claim asserts that every specialist analysis entry
point — naming `comprehensive_risk_analysis` — short-circuits on the error
sentinel and returns its message instead of issuing a generation call; with a
Data Provider that yields only the sentinel, `comprehensive_risk_analysis`
issues its generation call and does not return the error message. -/
theorem risk_analysis_ignores_error_sentinel :
    comprehensive_risk_analysis (fun _ => .err "No data returned for XYZ") "XYZ"
      = AgentResult.genCall
  ∧ AgentResult.genCall ≠ AgentResult.errText "No data returned for XYZ" := by
  decide

/-- C4 (amended): the market agent's `analyze_with_ai` does short-circuit —
when the fetch yields the error sentinel it returns the overview's wrapped
error message and issues no generation call — but the risk agent's
`comprehensive_risk_analysis` does not: it issues its generation call on
every input, error sentinel included. -/
theorem market_short_circuits_risk_does_not :
    (∀ (fetch : Fetch) (ticker query e : String), fetch ticker = .err e →
      analyze_with_ai fetch ticker query
        = .errText ("Could not fetch data for " ++ ticker ++ ": " ++ e))
  ∧ (∀ (fetch : Fetch) (ticker : String),
      comprehensive_risk_analysis fetch ticker = AgentResult.genCall) := by
  constructor
  · intro fetch t q e h
    simp [analyze_with_ai, get_company_overview, h]
  · intro fetch t
    rfl

/-- C4 witness: the amended theorem at a concrete failing Data Provider. -/
theorem market_short_circuits_risk_does_not_witness :
    analyze_with_ai (fun _ => .err "No data returned for AAPL") "AAPL" "how is AAPL?"
      = .errText ("Could not fetch data for " ++ "AAPL" ++ ": "
          ++ "No data returned for AAPL")
  ∧ comprehensive_risk_analysis (fun _ => .err "No data returned for AAPL") "AAPL"
      = AgentResult.genCall :=
  ⟨market_short_circuits_risk_does_not.1 _ "AAPL" "how is AAPL?"
      "No data returned for AAPL" rfl,
    market_short_circuits_risk_does_not.2 _ "AAPL"⟩

/-- C5: the retry helper makes at most 4 attempts (its outcome depends only
on the first four attempt results); when all four fail with a retryable
rate-limit/server-busy signal it sleeps 2, 3, 5, 9 seconds and terminates by
raising the last error, which `generate` surfaces as an error-prefixed
string; and whenever a non-retryable error occurs at any attempt `k` (after
any run of retryable failures at attempts `0..k-1`), it re-raises that error
immediately — only the back-off sleeps of the earlier retryable failures
have happened, and `generate` surfaces that error. -/
theorem retry_helper_contract :
    (∀ (f g : Nat → Except String String),
      (∀ j, j < 4 → f j = g j) → call_with_retry f 4 = call_with_retry g 4)
  ∧ (∀ (f : Nat → Except String String) (e0 e1 e2 e3 : String),
      f 0 = .error e0 → f 1 = .error e1 → f 2 = .error e2 → f 3 = .error e3 →
      isRetryableError e0 = true → isRetryableError e1 = true →
      isRetryableError e2 = true → isRetryableError e3 = true →
      call_with_retry f 4 = ⟨.raised e3, [2, 3, 5, 9]⟩
        ∧ generate f = "Error generating response: " ++ e3)
  ∧ (∀ (f : Nat → Except String String) (err : Nat → String) (k : Nat),
      k < 4 →
      (∀ j, j ≤ k → f j = .error (err j)) →
      (∀ j, j < k → isRetryableError (err j) = true) →
      isRetryableError (err k) = false →
      call_with_retry f 4
          = ⟨.raised (err k), (List.range k).map fun i => 2 ^ i + 1⟩
        ∧ generate f = "Error generating response: " ++ err k) := by
  refine ⟨?_, ?_, ?_⟩
  · intro f g h
    exact callWithRetryAux_congr f g 4 0 Option.none
      (fun j _ hj2 => h j (by omega))
  · intro f e0 e1 e2 e3 h0 h1 h2 h3 r0 r1 r2 r3
    have key : call_with_retry f 4 = ⟨.raised e3, [2, 3, 5, 9]⟩ := by
      show callWithRetryAux f 4 0 Option.none = _
      simp only [callWithRetryAux, h0, h1, h2, h3, r0, r1, r2, r3, if_true]
      norm_num
    exact ⟨key, by simp [generate, key]⟩
  · intro f err k hk hall hret hko
    have key : call_with_retry f 4
        = ⟨.raised (err k), (List.range k).map fun i => 2 ^ i + 1⟩ := by
      show callWithRetryAux f 4 0 Option.none = _
      interval_cases k
      · have h0 := hall 0 (by omega)
        simp [callWithRetryAux, h0, hko]
      · have h0 := hall 0 (by omega)
        have h1 := hall 1 (by omega)
        have r0 := hret 0 (by omega)
        simp [callWithRetryAux, h0, h1, r0, hko, List.range_succ]
      · have h0 := hall 0 (by omega)
        have h1 := hall 1 (by omega)
        have h2 := hall 2 (by omega)
        have r0 := hret 0 (by omega)
        have r1 := hret 1 (by omega)
        simp [callWithRetryAux, h0, h1, h2, r0, r1, hko, List.range_succ]
      · have h0 := hall 0 (by omega)
        have h1 := hall 1 (by omega)
        have h2 := hall 2 (by omega)
        have h3 := hall 3 (by omega)
        have r0 := hret 0 (by omega)
        have r1 := hret 1 (by omega)
        have r2 := hret 2 (by omega)
        simp [callWithRetryAux, h0, h1, h2, h3, r0, r1, r2, hko, List.range_succ]
    exact ⟨key, by simp [generate, key]⟩

/-- C5 witness: the retry contract at a concrete always-rate-limited call, a
concrete call that fails non-retryably on its first attempt, and a concrete
call that is rate-limited on attempt 0 and then fails non-retryably on
attempt 1. -/
theorem retry_helper_contract_witness :
    call_with_retry (fun _ => (.error "429 rate limited" : Except String String)) 4
      = call_with_retry (fun _ => (.error "429 rate limited" : Except String String)) 4
  ∧ (call_with_retry (fun _ => (.error "429 rate limited" : Except String String)) 4
        = ⟨.raised "429 rate limited", [2, 3, 5, 9]⟩
      ∧ generate (fun _ => .error "429 rate limited")
        = "Error generating response: " ++ "429 rate limited")
  ∧ (call_with_retry (fun _ => (.error "invalid request" : Except String String)) 4
        = ⟨.raised "invalid request", []⟩
      ∧ generate (fun _ => .error "invalid request")
        = "Error generating response: " ++ "invalid request")
  ∧ (call_with_retry
        (fun i => if i = 0 then (.error "429 rate limited" : Except String String)
          else .error "400 bad request") 4
        = ⟨.raised "400 bad request", [2]⟩
      ∧ generate
          (fun i => if i = 0 then .error "429 rate limited"
            else .error "400 bad request")
        = "Error generating response: " ++ "400 bad request") :=
  ⟨retry_helper_contract.1 _ _ (fun j _ => rfl),
    retry_helper_contract.2.1 _ "429 rate limited" "429 rate limited"
      "429 rate limited" "429 rate limited" rfl rfl rfl rfl
      (by decide) (by decide) (by decide) (by decide),
    retry_helper_contract.2.2 _ (fun _ => "invalid request") 0 (by omega)
      (fun j _ => rfl) (fun j hj => absurd hj (by omega)) (by decide),
    retry_helper_contract.2.2
      (fun i => if i = 0 then .error "429 rate limited" else .error "400 bad request")
      (fun i => if i = 0 then "429 rate limited" else "400 bad request") 1 (by omega)
      (by intro j hj; interval_cases j <;> rfl)
      (by intro j hj; interval_cases j; decide) (by decide)⟩

/-- C6: `analyze_document` follows the fallback state machine: a successful
upload returns the generated answer; when the upload attempt raises (any
exception, including the terminal error of exhausted rate-limit retries) and
local extraction yields non-empty text, the result is a text-generation call
on the fallback prompt around the extracted text, truncated to 60,000
characters with a truncation marker appended exactly when longer; and when
extraction yields empty text the result is a combined failure message that
contains the original upload error, reports the extraction failure, advises
retrying — never an empty response. -/
theorem analyze_document_fallback_machine :
    (∀ (ua : Nat → Except String String) (p q fn e : String),
      (call_with_retry ua 4).outcome = .raised e → p ≠ "" →
      analyze_document ua p q fn
        = .fallbackGenerated (fallbackPrompt fn (truncateText p) q))
  ∧ (∀ p : String, MAX_TEXT_CHARS < p.length →
      truncateText p
        = String.mk (p.data.take MAX_TEXT_CHARS) ++ "\n\n... [text truncated] ...")
  ∧ (∀ p : String, p.length ≤ MAX_TEXT_CHARS → truncateText p = p)
  ∧ (∀ (ua : Nat → Except String String) (q fn e : String),
      (call_with_retry ua 4).outcome = .raised e →
      analyze_document ua "" q fn = .combinedFailure (combinedFailureMsg e)
        ∧ containsSubL e.data (combinedFailureMsg e).data = true
        ∧ strIn "could not extract text" (combinedFailureMsg e) = true
        ∧ strIn "try again" (combinedFailureMsg e) = true
        ∧ combinedFailureMsg e ≠ "")
  ∧ (∀ (ua : Nat → Except String String) (p q fn t : String),
      (call_with_retry ua 4).outcome = .ok t →
      analyze_document ua p q fn = .uploaded t) := by
  refine ⟨?_, ?_, ?_, ?_, ?_⟩
  · intro ua p q fn e h hp
    unfold analyze_document
    rw [h]
    simp [docExceptBranch, hp]
  · intro p h
    simp [truncateText, h]
  · intro p h
    simp [truncateText, Nat.not_lt.mpr h]
  · intro ua q fn e h
    have hdata : (combinedFailureMsg e).data
        = "Error analyzing document: ".data
          ++ (e.data ++ ("\n\n".data
            ++ ("Additionally, could not extract text from the PDF for a ".data
              ++ "fallback analysis.  Please try again in a minute.".data))) := by
      simp [combinedFailureMsg, data_append, List.append_assoc]
    refine ⟨?_, ?_, ?_, ?_, ?_⟩
    · unfold analyze_document
      rw [h]
      simp [docExceptBranch]
    · rw [hdata]
      exact containsSubL_of_tail _ _ _ (containsSubL_self _ _)
    · have hdata2 : (combinedFailureMsg e).data
          = ("Error analyzing document: ".data ++ (e.data ++ "\n\n".data))
            ++ ("Additionally, could not extract text from the PDF for a ".data
              ++ "fallback analysis.  Please try again in a minute.".data) := by
        simp [combinedFailureMsg, data_append, List.append_assoc]
      rw [strIn, hdata2]
      exact containsSubL_of_tail _ _ _ (by decide)
    · have hdata3 : (combinedFailureMsg e).data
          = ("Error analyzing document: ".data ++ (e.data ++ ("\n\n".data
              ++ "Additionally, could not extract text from the PDF for a ".data)))
            ++ "fallback analysis.  Please try again in a minute.".data := by
        simp [combinedFailureMsg, data_append, List.append_assoc]
      rw [strIn, hdata3]
      exact containsSubL_of_tail _ _ _ (by decide)
    · intro hc
      have hd := congrArg String.data hc
      rw [hdata] at hd
      rcases List.append_eq_nil.mp hd with ⟨h1, _⟩
      exact absurd h1 (by decide)
  · intro ua p q fn t h
    unfold analyze_document
    rw [h]

/-- C6 witness: the fallback state machine at a concrete always-rate-limited
upload (both extraction outcomes), concrete truncation inputs on both sides
of the budget, and a concrete successful upload. -/
theorem analyze_document_fallback_machine_witness :
    analyze_document (fun _ => .error "429 Resource exhausted")
        "Page 1 text" "What are the risks?" "doc.pdf"
      = .fallbackGenerated
          (fallbackPrompt "doc.pdf" (truncateText "Page 1 text") "What are the risks?")
  ∧ truncateText (String.mk (List.replicate 60001 'x'))
      = String.mk ((String.mk (List.replicate 60001 'x')).data.take MAX_TEXT_CHARS)
          ++ "\n\n... [text truncated] ..."
  ∧ truncateText "abc" = "abc"
  ∧ analyze_document (fun _ => .error "429 Resource exhausted") "" "q" "doc.pdf"
      = .combinedFailure (combinedFailureMsg "429 Resource exhausted")
  ∧ analyze_document (fun _ => .ok "The answer") "Page 1 text" "q" "doc.pdf"
      = .uploaded "The answer" :=
  ⟨analyze_document_fallback_machine.1 _ "Page 1 text" "What are the risks?"
      "doc.pdf" "429 Resource exhausted" (by decide) (by decide),
    analyze_document_fallback_machine.2.1 _
      (by show MAX_TEXT_CHARS < (List.replicate 60001 'x').length
          rw [List.length_replicate]
          norm_num [MAX_TEXT_CHARS]),
    analyze_document_fallback_machine.2.2.1 "abc" (by decide),
    (analyze_document_fallback_machine.2.2.2.1 _ "q" "doc.pdf"
      "429 Resource exhausted" (by decide)).1,
    analyze_document_fallback_machine.2.2.2.2 _ "Page 1 text" "q" "doc.pdf"
      "The answer" (by decide)⟩

/-- C7: for every numeric input, `format_percentage` renders the value scaled
by 100 to two decimal places with a percent sign when its magnitude is below
1, and renders it as-is (two decimals, percent sign) when the magnitude is at
least 1; `None` renders `"N/A"`; and on the claim's concrete inputs,
`0.0543` gives `"5.43%"` and `54.3` gives `"54.30%"`. -/
theorem format_percentage_contract :
    (∀ v : Dec, format_percentage (.num v)
      = (if Dec.lt v.abs ⟨1, 0⟩ = true then formatFixed (v.mulPow10 2) 2
         else formatFixed v 2) ++ "%")
  ∧ format_percentage .none = "N/A"
  ∧ format_percentage (.num ⟨543, 4⟩) = "5.43%"
  ∧ format_percentage (.num ⟨543, 1⟩) = "54.30%" := by
  refine ⟨?_, rfl, by decide, by decide⟩
  intro v
  by_cases h : Dec.lt v.abs ⟨1, 0⟩ = true <;>
    simp [format_percentage, pyFloatValOf, formatPercentOfPyFloat,
      formatPercentOfDec, h]

/-- C8: for every numeric input, `format_large_number` renders the value with
suffix `T`/`B`/`M`/`K` at magnitude thresholds `1e12`/`1e9`/`1e6`/`1e3`, two
decimal places (one for `K`), `"$"`-prefixed, values below `1e3` with two
decimals and no suffix; `None` renders `"N/A"`; on the claim's concrete
input, `1_500_000_000_000` gives `"$1.50T"` (and the one-decimal `K` branch
and the suffix-free branch behave as claimed on `2500` and `999`). -/
theorem format_large_number_contract :
    (∀ v : Dec, format_large_number (.num v)
      = if Dec.le ⟨1000000000000, 0⟩ v.abs = true then
          "$" ++ formatFixed (v.divPow10 12) 2 ++ "T"
        else if Dec.le ⟨1000000000, 0⟩ v.abs = true then
          "$" ++ formatFixed (v.divPow10 9) 2 ++ "B"
        else if Dec.le ⟨1000000, 0⟩ v.abs = true then
          "$" ++ formatFixed (v.divPow10 6) 2 ++ "M"
        else if Dec.le ⟨1000, 0⟩ v.abs = true then
          "$" ++ formatFixed (v.divPow10 3) 1 ++ "K"
        else "$" ++ formatFixed v 2)
  ∧ format_large_number .none = "N/A"
  ∧ format_large_number (.num ⟨1500000000000, 0⟩) = "$1.50T"
  ∧ format_large_number (.num ⟨2500, 0⟩) = "$2.5K"
  ∧ format_large_number (.num ⟨999, 0⟩) = "$999.00" := by
  refine ⟨fun v => rfl, rfl, by decide, by decide, by decide⟩

/-- C9 (implicit): the shared formatting helpers are total at the public
interface — `None` yields `"N/A"`, a string parseable as a float is formatted
numerically (the numeric string `"1500000000"` is scaled and suffixed to
`"$1.50B"`, the underscore-grouped `"1_000"` to `"$1.0K"`, and the
`inf` / `infinity` / `nan` spellings take the numeric branch too, e.g.
`"inf"` → `"$infT"`, `" -Infinity "` → `"$-infT"`, `"nan"` → `"$nan"` /
`"nan%"`), an unparsable string passes through unchanged (the literal
`"N/A"` stays `"N/A"`), and any other value is returned via its string
representation. -/
theorem formatting_helpers_total_contract :
    format_large_number .none = "N/A"
  ∧ format_percentage .none = "N/A"
  ∧ (∀ s, format_large_number (.str s)
      = match pyFloatOfString s with
        | some v => formatLargeOfPyFloat v
        | Option.none => s)
  ∧ (∀ s, format_percentage (.str s)
      = match pyFloatOfString s with
        | some v => formatPercentOfPyFloat v
        | Option.none => s)
  ∧ (∀ r, format_large_number (.obj r) = r)
  ∧ (∀ r, format_percentage (.obj r) = r)
  ∧ format_large_number (.str "1500000000") = "$1.50B"
  ∧ format_large_number (.str "1_000") = "$1.0K"
  ∧ format_large_number (.str "inf") = "$infT"
  ∧ format_large_number (.str " -Infinity ") = "$-infT"
  ∧ format_large_number (.str "nan") = "$nan"
  ∧ format_percentage (.str "nan") = "nan%"
  ∧ format_percentage (.str "1e1_0") = "10000000000.00%"
  ∧ format_large_number (.str "1__0") = "1__0"
  ∧ format_large_number (.str "N/A") = "N/A"
  ∧ format_percentage (.str "0.0543") = "5.43%" := by
  refine ⟨rfl, rfl, ?_, ?_, fun r => rfl, fun r => rfl, by decide, by decide,
    by decide, by decide, by decide, by decide, by decide, by decide, by decide,
    by decide⟩
  · intro s
    simp only [format_large_number, pyFloatValOf]
    cases pyFloatOfString s <;> rfl
  · intro s
    simp only [format_percentage, pyFloatValOf]
    cases pyFloatOfString s <;> rfl

/-- C10 (implicit): each multi-company comparison operation normalizes every
ticker by trimming and upper-casing and keys its per-company data dict by the
normalized symbol, so the assembled comparison data holds exactly one block
per distinct normalized ticker — the first-occurrence deduplication of the
normalized list, each block computed from its normalized ticker — with no
duplicate keys. -/
theorem comparison_dedup_by_normalized_ticker :
    ∀ (fetch : Fetch) (tickers : List String),
      (compare_risks_profiles fetch tickers
        = (firstDedup [] (tickers.map normTicker)).map
            fun k => (k, assess_financial_risk_op fetch k))
    ∧ (compare_companies_data fetch tickers
        = (firstDedup [] (tickers.map normTicker)).map
            fun k => (k, get_company_overview fetch k))
    ∧ (comparison_report_data fetch tickers
        = (firstDedup [] (tickers.map normTicker)).map fun k => (k, fetch k))
    ∧ ((compare_risks_profiles fetch tickers).map Prod.fst
        = firstDedup [] (tickers.map normTicker))
    ∧ ((compare_risks_profiles fetch tickers).map Prod.fst).Nodup := by
  intro fetch tickers
  have h1 := foldl_norm_dictInsert (assess_financial_risk_op fetch) tickers
  have h2 := foldl_norm_dictInsert (get_company_overview fetch) tickers
  have h3 := foldl_norm_dictInsert fetch tickers
  have hid : (Prod.fst ∘ fun k => (k, assess_financial_risk_op fetch k)) = id := by
    funext k; rfl
  refine ⟨h1, h2, h3, ?_, ?_⟩
  · rw [compare_risks_profiles, h1, List.map_map, hid, List.map_id]
  · rw [compare_risks_profiles, h1, List.map_map, hid, List.map_id]
    exact (firstDedup_nodup (tickers.map normTicker) []).1

end FinSight
